import Mathlib

/-!
Verification development for the orchestration core of the DemoTesi
multi-agent analysis system (backend of the repository).

The Python sources are shallowly embedded as executable Lean definitions:
pure data manipulation becomes Lean functions, node functions become
functions from the graph state (plus the responses returned by the external
inference service, which are modelled as explicit inputs) to the command
(route plus state delta) they emit.  Each definition mirrors one function
or code block of the source; the file then proves or refutes the behavioural
claims of the specification.
-/

/- ===================== string helpers =====================
The Python code uses str.replace, substring containment and str.strip.
The corresponding core String functions are implemented with well-founded
or position-based recursion, so equivalent structurally recursive versions
over the underlying character list are defined here; they compute by
kernel reduction on concrete inputs. -/

/-- Checks whether the first list is a leading segment of the second and, if
so, returns the remainder of the second list. -/
def dropLeadingMatch : List Char → List Char → Option (List Char)
  | [], s => some s
  | _ :: _, [] => none
  | p :: ps, c :: cs => if p = c then dropLeadingMatch ps cs else none

/-- Removes every non-overlapping occurrence of the nonempty pattern from the
list, scanning left to right; fuel bounds the recursion and is instantiated
with the length of the scanned list, which always suffices. -/
def removeAllAux (pat : List Char) : Nat → List Char → List Char
  | _, [] => []
  | 0, s => s
  | Nat.succ n, c :: cs =>
    match dropLeadingMatch pat (c :: cs) with
    | some rest => removeAllAux pat n rest
    | none => c :: removeAllAux pat n cs

/-- Python str.replace with an empty replacement: removes every occurrence of
the pattern (the empty pattern leaves the string unchanged). -/
def removeAll (s pat : String) : String :=
  match pat.data with
  | [] => s
  | p :: ps => String.mk (removeAllAux (p :: ps) s.data.length s.data)

/-- Boolean test that the first list is a leading segment of the second. -/
def leadingSegment : List Char → List Char → Bool
  | [], _ => true
  | _ :: _, [] => false
  | p :: ps, c :: cs => (p = c) && leadingSegment ps cs

/-- Substring containment over character lists. -/
def containsSubAux (pat : List Char) : List Char → Bool
  | [] => leadingSegment pat []
  | c :: cs => leadingSegment pat (c :: cs) || containsSubAux pat cs

/-- Python substring containment, pat in s. -/
def containsSub (s pat : String) : Bool :=
  containsSubAux pat.data s.data

/-- Python str.strip: removes leading and trailing whitespace. -/
def pyStrip (s : String) : String :=
  String.mk (((s.data.dropWhile Char.isWhitespace).reverse.dropWhile Char.isWhitespace).reverse)

/- ===================== data model (backend/models/state.py) ===================== -/

/-- Task of an execution plan, from class TeamTask of backend/models/state.py:
the owning team and the instruction text. -/
structure TeamTask where
  team : String
  instruction : String
  deriving DecidableEq, Repr

/-- Execution plan, from class ExecutionPlan of backend/models/state.py.
The cross_domain field defaults to false on parse when the service omits it.
planner_node.py declares a shadowing ExecutionPlan model without the
cross_domain field; the state model embedded here is the one every consumer
of state reads. -/
structure ExecutionPlan where
  subject_id : Option Int
  period : String
  cross_domain : Bool
  tasks : List TeamTask
  deriving DecidableEq, Repr

/-- Scan of the task list in order, from the loop body of
ExecutionPlan.get_next_task: the first task whose instruction is not in the
completed set is returned. -/
def getNextTaskScan : List TeamTask → List String → Option TeamTask
  | [], _ => none
  | t :: rest, completed =>
    if t.instruction ∈ completed then getNextTaskScan rest completed else some t

/-- ExecutionPlan.get_next_task of backend/models/state.py: returns the first
task of the plan whose instruction is not completed, none when all are. -/
def ExecutionPlan.get_next_task (plan : ExecutionPlan) (completed : List String) : Option TeamTask :=
  getNextTaskScan plan.tasks completed

/-- Structured payload of a tool or of an agent answer.  The orchestration
core treats the domain records as opaque and only inspects the error tag;
aggregate is the envelope built by a collector node when several tools fired,
with keys results and num_analyses. -/
inductive RawData where
  | record (payload : String)
  | error (msg : String)
  | aggregate (results : List RawData) (num_analyses : Nat)

/-- Error tag detection on a payload. -/
def RawData.isError : RawData → Bool
  | RawData.error _ => true
  | RawData.record _ => false
  | RawData.aggregate _ _ => false

/-- AgentResponse TypedDict of backend/models/state.py. -/
structure AgentResponse where
  task : String
  agent_name : String
  data : RawData

/-- TeamResponse TypedDict of backend/models/state.py: the per-team result
entry with the ordered list of agent responses. -/
structure TeamResponse where
  structured_responses : List AgentResponse
  team_name : String

/-- GraphData TypedDict of backend/models/state.py; plotly_json is opaque
here. -/
structure GraphData where
  id : String
  title : String
  type : String
  plotly_json : String
  deriving DecidableEq, Repr

/-- A langgraph message as the orchestration nodes read it: an optional name
tag and the content text. -/
structure Message where
  name : Option String
  content : String
  deriving DecidableEq, Repr

/-- The graph State of backend/models/state.py, restricted to the fields the
orchestration nodes read.  completed_tasks is a set of task strings; the
collector nodes add the raw extracted task, which is absent (None) when no
supervisor instruction message exists, hence the Option. -/
structure State where
  messages : List Message
  next : Option String
  original_question : Option String
  structured_responses : List TeamResponse
  execution_plan : Option ExecutionPlan
  completed_tasks : List (Option String)
  graphs : List GraphData

/- ===================== retry governor (backend/config/settings.py) ===================== -/

/-- Outcome of one underlying call of the wrapped agent: success, a
ResourceExhausted rate-limit failure carrying the extracted retry delay when
one is present, or any other exception. -/
inductive CallOutcome (α : Type) where
  | success (value : α)
  | rateLimited (retryDelay : Option Nat)
  | otherFailure (msg : String)

/-- Result of invoke_with_retry: the returned value, the re-raise of the
rate-limit failure after exhaustion, or the propagation of a non-rate-limit
exception. -/
inductive RetryOutcome (α : Type) where
  | ok (value : α)
  | rateLimitRaised
  | otherRaised (msg : String)
  deriving DecidableEq, Repr

/-- Delay extraction of invoke_with_retry: the retry_delay attribute or the
regex match on the message when present, otherwise the fixed 60 second
default. -/
def retryDelaySeconds (d : Option Nat) : Nat :=
  d.getD 60

/-- Loop of invoke_with_retry of backend/config/settings.py.  The callable is
modelled as the outcome of its i-th invocation; the fuel argument is
max_retries + 1 - retry_count, the number of invocations still allowed, so
the inner zero-fuel branch is the retry_count > max_retries re-raise and
every earlier rate-limit failure records one time.sleep duration. -/
def invokeRetryLoop {α : Type} (calls : Nat → CallOutcome α) : Nat → Nat → RetryOutcome α × List Nat
  | _, 0 => (RetryOutcome.rateLimitRaised, [])
  | i, Nat.succ fuel =>
    match calls i with
    | CallOutcome.success v => (RetryOutcome.ok v, [])
    | CallOutcome.otherFailure e => (RetryOutcome.otherRaised e, [])
    | CallOutcome.rateLimited d =>
      match fuel with
      | 0 => (RetryOutcome.rateLimitRaised, [])
      | Nat.succ f =>
        let rest := invokeRetryLoop calls (i + 1) (Nat.succ f)
        (rest.1, retryDelaySeconds d :: rest.2)

/-- invoke_with_retry of backend/config/settings.py: result together with the
ordered list of slept delays. -/
def invoke_with_retry {α : Type} (calls : Nat → CallOutcome α) (max_retries : Nat) : RetryOutcome α × List Nat :=
  invokeRetryLoop calls 0 (max_retries + 1)

/-- A callable that fails with a rate-limit error on its first k invocations,
with the supplied per-failure delays, and then succeeds with v. -/
def failsThenSucceeds {α : Type} (ds : List (Option Nat)) (v : α) : Nat → CallOutcome α :=
  fun i =>
    match ds.get? i with
    | some d => CallOutcome.rateLimited d
    | none => CallOutcome.success v

/- ===================== top-level supervisor (backend/nodes/supervisor.py) ===================== -/

/-- String-valued key lookup with default on a TeamResponse TypedDict, as
dict.get behaves at runtime: only the team_name key holds a string, so any
other key, in particular the task key, yields the default. -/
def TeamResponse.getStr (tr : TeamResponse) (key dflt : String) : String :=
  if key = "team_name" then tr.team_name else dflt

/-- Completed-task extraction loop of supervisor_node in
backend/nodes/supervisor.py: for every entry of structured_responses it reads
the task key with default empty, strips it and keeps it when nonempty.  The
iterated entries are TeamResponse dicts, which carry no task key, so the set
this loop builds is always empty. -/
def supervisorCompletedTasks (responses : List TeamResponse) : List String :=
  responses.foldl
    (fun acc tr =>
      let t := pyStrip (tr.getStr ("task") (""))
      if t = "" then acc else acc.insert t)
    []

/-- Structured output schema of the routing call of the top-level supervisor.
The name SupervisorRouter is imported by supervisor.py from
backend/models/state.py, where no declaration exists; the shape is fixed by
the two reads in supervisor.py, the next field and the task field. -/
structure SupervisorRouter where
  next : String
  task : String
  deriving DecidableEq, Repr

/-- Routing target of the top-level supervisor: a named graph node or the
END terminal of the whole pipeline. -/
inductive TopGoto where
  | member (name : String)
  | endRoute
  deriving DecidableEq, Repr

/-- Command emitted by the top-level supervisor: routing target plus the
state delta, one message and the next marker. -/
structure TopCommand where
  goto : TopGoto
  messages : List Message
  next : String
  deriving DecidableEq, Repr

/-- supervisor_node of backend/nodes/supervisor.py.  The two invocations of
the external inference service are modelled as inputs: resp is the
structured router output and synthesisAnswer the free-text synthesis
generated on the FINISH branch.  The node rebuilds the completed set from
structured_responses, downgrades a proposed task that is already in that set
to FINISH, and on FINISH emits the synthesis message and routes to END,
otherwise routes to the chosen member with a supervisor_instruction
message. -/
def top_supervisor_node (members : List String) (state : State)
    (resp : SupervisorRouter) (synthesisAnswer : String) : TopCommand :=
  let completed := supervisorCompletedTasks state.structured_responses
  let task_description := pyStrip resp.task
  let goto := if task_description ∈ completed then ("FINISH") else resp.next
  if goto = "FINISH" then
    { goto := TopGoto.endRoute
      messages := [{ name := some ("supervisor"), content := synthesisAnswer }]
      next := "FINISH" }
  else
    { goto := TopGoto.member goto
      messages := [{ name := some ("supervisor_instruction"),
                     content := ("[TASK]: ") ++ task_description }]
      next := goto }

/-- Count of inference-service invocations in one run of supervisor_node:
the structured router call always happens and the FINISH branch adds the
synthesis call. -/
def topSupervisorServiceCalls (state : State) (resp : SupervisorRouter) : Nat :=
  let completed := supervisorCompletedTasks state.structured_responses
  let goto := if pyStrip resp.task ∈ completed then ("FINISH") else resp.next
  if goto = "FINISH" then 2 else 1

/-- Claim-side predicate: every task instruction of the plan is in the
completed-task set of the state. -/
def planInstructionsCompleted (plan : ExecutionPlan) (completed : List (Option String)) : Bool :=
  plan.tasks.all (fun t => completed.contains (some t.instruction))

/- ===================== planner (backend/nodes/planner_node.py) ===================== -/

/-- Python text of an optional subject id as interpolated into the plan
summary: the number, or None when absent. -/
def subjectLabel : Option Int → String
  | some n => toString n
  | none => "None"

/-- Plan summary text built by planner_node before its command is
returned. -/
def plan_summary (plan : ExecutionPlan) : String :=
  let header := ("EXECUTION PLAN:\nSubject: ") ++ subjectLabel plan.subject_id
    ++ (", Period: ") ++ plan.period ++ ("\n\nTasks to execute:\n")
  (plan.tasks.enum).foldl
    (fun acc p => acc ++ toString (p.1 + 1) ++ (". [") ++ p.2.team ++ ("]\n   ")
      ++ p.2.instruction ++ ("\n\n"))
    header

/-- Command emitted by planner_node: route plus the stored state delta. -/
structure PlannerCommand where
  goto : String
  messages : List Message
  original_question : String
  execution_plan : ExecutionPlan
  completed_tasks : List (Option String)

/-- planner_node of backend/nodes/planner_node.py.  The planning chain call
to the external inference service is modelled by passing in its parsed
result plan.  The node prints and summarises the plan and stores it in the
context unchanged, together with the original question and an empty
completed-task set; no post-processing of the plan takes place. -/
def planner_node (plan : ExecutionPlan) (original_question : String) : PlannerCommand :=
  { goto := "supervisor"
    messages := [{ name := none, content := plan_summary plan }]
    original_question := original_question
    execution_plan := plan
    completed_tasks := [] }

/-- Claim-side count of the distinct teams referenced by a task list. -/
def distinctTeamsCount (tasks : List TeamTask) : Nat :=
  ((tasks.map (fun t => t.team)).dedup).length

/-- Concrete empty-context state used by counterexamples and witnesses. -/
def stateVoid : State :=
  { messages := [], next := none, original_question := some ("q"),
    structured_responses := [], execution_plan := none,
    completed_tasks := [], graphs := [] }

/-- Concrete two-team plan flagged cross-domain. -/
def planTwoTeamsCross : ExecutionPlan :=
  { subject_id := some 1, period := "last_7_days", cross_domain := true,
    tasks := [{ team := "sleep_team", instruction := "analyze sleep" },
              { team := "kitchen_team", instruction := "analyze kitchen" }] }

/-- Concrete state in which both instructions of planTwoTeamsCross are
completed. -/
def stateAllDone : State :=
  { messages := [], next := none, original_question := some ("q"),
    structured_responses := [], execution_plan := some planTwoTeamsCross,
    completed_tasks := [some ("analyze sleep"), some ("analyze kitchen")],
    graphs := [] }

/-- Concrete two-team plan not flagged cross-domain. -/
def planTwoTeamsNoCross : ExecutionPlan :=
  { subject_id := some 1, period := "last_14_days", cross_domain := false,
    tasks := [{ team := "sleep_team", instruction := "sleep of subject 1" },
              { team := "kitchen_team", instruction := "kitchen of subject 1" }] }

/-- Concrete two-team plan for the task-scan claims. -/
def planPair : ExecutionPlan :=
  { subject_id := some 2, period := "last_30_days", cross_domain := false,
    tasks := [{ team := "sleep_team", instruction := "sleep stats" },
              { team := "mobility_team", instruction := "rooms visited" }] }

/-- Concrete state in which both instructions of planPair are completed. -/
def stateDonePair : State :=
  { messages := [], next := none, original_question := some ("q2"),
    structured_responses := [], execution_plan := some planPair,
    completed_tasks := [some ("sleep stats"), some ("rooms visited")],
    graphs := [] }

/-- Concrete plan used by the get_next_task witness. -/
def planScanWitness : ExecutionPlan :=
  { subject_id := none, period := "last_7_days", cross_domain := false,
    tasks := [{ team := "sleep_team", instruction := "a" },
              { team := "kitchen_team", instruction := "b" }] }

/- ===================== team supervisors (backend/nodes/*_teams/*_supervisor.py) ===================== -/

/-- Loop over the state messages that derives the two visualization flags of
a team supervisor: called is set when a message named supName carries the
visualization tracking text, completed is set, stopping the loop, at the
first message named vizName. -/
def vizFlagsScan (supName vizName : String) : List Message → Bool → Bool × Bool
  | [], called => (called, false)
  | m :: rest, called =>
    let calledNew :=
      if (m.name == some supName) && containsSub (m.content) ("VISUALIZATION: Generating graphs")
      then true else called
    if m.name == some vizName then (calledNew, true)
    else vizFlagsScan supName vizName rest calledNew

/-- Command emitted by a team supervisor: routing target, the END constant
of langgraph being the string __end__, the next marker and the tracking
message. -/
structure TeamCommand where
  goto : String
  next : String
  messages : List Message
  deriving DecidableEq, Repr

/-- Deterministic post-processing of the router choice in
sleep_supervisor.py: an already called or completed visualization downgrades
a sleep_visualization choice to FINISH, a completed visualization forces
FINISH, and FINISH maps to END. -/
def sleepRouteGuard (called completed : Bool) (goto : String) : String :=
  let goto1 := if (goto == "sleep_visualization") && (called || completed)
    then ("FINISH") else goto
  let goto2 := if completed && !(goto1 == "FINISH") then ("FINISH") else goto1
  if goto2 == "FINISH" then ("__end__") else goto2

/-- Tracking message content of the sleep supervisor. -/
def sleepTrackingText (goto : String) : String :=
  if goto == "sleep_visualization" then ("VISUALIZATION: Generating graphs")
  else if goto == "__end__" then ("FINISH: Completing sleep team workflow")
  else ("ROUTING: Calling ") ++ goto

/-- supervisor_node of backend/nodes/sleep_teams/sleep_supervisor.py.  The
router call to the external inference service is modelled by its returned
choice respNext.  The node derives the visualization flags from the
messages, applies the deterministic guard and emits the tracking message.
The cross_domain flag of the plan is not read anywhere in this node. -/
def sleep_supervisor_node (state : State) (respNext : String) : TeamCommand :=
  let flags := vizFlagsScan ("sleep_supervisor") ("sleep_visualization") state.messages false
  let goto := sleepRouteGuard flags.1 flags.2 respNext
  { goto := goto, next := goto,
    messages := [{ name := some ("sleep_supervisor"), content := sleepTrackingText goto }] }

/-- Tracking message content of the kitchen supervisor. -/
def kitchenTrackingText (goto : String) : String :=
  if goto == "kitchen_visualization_node" then ("VISUALIZATION: Generating graphs")
  else if goto == "__end__" then ("FINISH: Completing kitchen team workflow")
  else ("ROUTING: Calling ") ++ goto

/-- supervisor_node of backend/nodes/kitchen_teams/kitchen_supervisor.py.
The router call, wrapped by the retry governor in the source, is modelled by
its returned choice.  The node reads the cross_domain flag of the plan only
to phrase the prompt of that call; no deterministic check alters the
routing, which maps FINISH to END and follows any other choice unchanged. -/
def kitchen_supervisor_node (state : State) (respNext : String) : TeamCommand :=
  let cross_domain := match state.execution_plan with
    | some plan => plan.cross_domain
    | none => false
  let goto := if respNext == "FINISH" then ("__end__") else respNext
  { goto := goto, next := goto,
    messages := [{ name := some ("kitchen_supervisor"),
                   content := kitchenTrackingText goto
                     ++ (if cross_domain then ("") else ("")) }] }

/-- Deterministic post-processing of the router choice in
mobility_supervisor.py, identical in shape to the sleep guard with the
mobility node names. -/
def mobilityRouteGuard (called completed : Bool) (goto : String) : String :=
  let goto1 := if (goto == "mobility_visualization_node") && (called || completed)
    then ("FINISH") else goto
  let goto2 := if completed && !(goto1 == "FINISH") then ("FINISH") else goto1
  if goto2 == "FINISH" then ("__end__") else goto2

/-- Tracking message content of the mobility supervisor. -/
def mobilityTrackingText (goto : String) : String :=
  if goto == "mobility_visualization_node" then ("VISUALIZATION: Generating graphs")
  else if goto == "__end__" then ("FINISH: Completing mobility team workflow")
  else ("ROUTING: Calling ") ++ goto

/-- supervisor_node of backend/nodes/mobility_teams/mobility_supervisor.py.
Like the sleep supervisor it derives the visualization flags and applies the
deterministic guard; the cross_domain flag is read only into the prompt of
the router call, never into the routing decision. -/
def mobility_supervisor_node (state : State) (respNext : String) : TeamCommand :=
  let flags := vizFlagsScan ("mobility_supervisor") ("mobility_visualization") state.messages false
  let goto := mobilityRouteGuard flags.1 flags.2 respNext
  { goto := goto, next := goto,
    messages := [{ name := some ("mobility_supervisor"), content := mobilityTrackingText goto }] }

/- ===================== collector node (backend/nodes/sleep_teams/analyze_sleep_node.py) ===================== -/

/-- A message of the internal agent result as the collector node reads it:
either a ToolMessage whose content has been parsed into the structured tool
payload (dict content is used as is, string content is JSON parsed, with a
parse-failure error record otherwise) or any other message. -/
inductive AgentMessage where
  | toolMsg (content : RawData)
  | otherMsg (content : String)

/-- Harvest loop of the collector node: the parsed contents of all
ToolMessages of the agent result, in order. -/
def harvestToolResults (msgs : List AgentMessage) : List RawData :=
  msgs.filterMap (fun m =>
    match m with
    | AgentMessage.toolMsg c => some c
    | AgentMessage.otherMsg _ => none)

/-- Aggregation step of the collector node: no tool output yields the error
sentinel, a single output is used directly, several outputs are wrapped in
the aggregate envelope carrying the list and its count. -/
def collect_agent_data : List RawData → RawData
  | [] => RawData.error ("Nessuna risposta dall\x27agente sleep")
  | [r] => r
  | r1 :: r2 :: rest => RawData.aggregate (r1 :: r2 :: rest) (r1 :: r2 :: rest).length

/-- Task extraction of the collector node: the content of the most recent
message named supervisor_instruction, with the task marker removed; absent
when no such message exists. -/
def findTaskMsg (msgs : List Message) : Option String :=
  match msgs.reverse.find? (fun m => m.name == some ("supervisor_instruction")) with
  | some m => some (removeAll (m.content) ("[TASK]: "))
  | none => none

/-- Python set.add on the completed-task set. -/
def addCompleted (completed : List (Option String)) (t : Option String) : List (Option String) :=
  if t ∈ completed then completed else completed ++ [t]

/-- Merge of an agent response into the team results, from the update block
of the collector node: the first entry of the given team receives the
response appended to its list; when no entry exists a new one holding just
this response is appended at the end. -/
def appendTeamResponse : List TeamResponse → String → AgentResponse → List TeamResponse
  | [], name, r => [{ structured_responses := [r], team_name := name }]
  | tr :: rest, name, r =>
    if tr.team_name = name then
      { tr with structured_responses := tr.structured_responses ++ [r] } :: rest
    else
      tr :: appendTeamResponse rest name r

/-- Python text of an optional string as interpolated into a message. -/
def pyTextOfOptStr : Option String → String
  | some s => s
  | none => "None"

/-- Command emitted by a collector node: route back to the team supervisor
plus the state delta. -/
structure NodeCommand where
  goto : String
  structured_responses : List TeamResponse
  completed_tasks : List (Option String)
  messages : List Message

/-- The node of create_analyze_sleep_node in
backend/nodes/sleep_teams/analyze_sleep_node.py.  The internal react agent
run is modelled by its returned message list.  The node extracts the task,
falls back to the default instruction when the task is absent or empty,
harvests every tool output, aggregates them, appends the response to the
sleep team entry, marks the raw task completed and routes back to the team
supervisor; every branch returns a command, no branch raises. -/
def analyze_sleep_node (state : State) (agentMessages : List AgentMessage) : NodeCommand :=
  let task := findTaskMsg state.messages
  let message := match task with
    | some t => if t = "" then ("Analizza il sonno del soggetto richiesto.") else t
    | none => "Analizza il sonno del soggetto richiesto."
  let all_results := harvestToolResults agentMessages
  let agent_data := collect_agent_data all_results
  let agent_response : AgentResponse :=
    { task := message, agent_name := "sleep_agent", data := agent_data }
  { goto := "sleep_team_supervisor"
    structured_responses := appendTeamResponse state.structured_responses ("sleep_team") agent_response
    completed_tasks := addCompleted state.completed_tasks task
    messages := [{ name := some ("sleep_node_response"),
                   content := ("SleepNode completed: ") ++ pyTextOfOptStr task }] }

/-- Lookup of the response list of a team in the team results, the first
entry of that name. -/
def teamResponses (trs : List TeamResponse) (name : String) : List AgentResponse :=
  match trs.find? (fun tr => tr.team_name == name) with
  | some tr => tr.structured_responses
  | none => []

/-- Invariant: at most one team-result entry per team name. -/
def uniquePerTeam (trs : List TeamResponse) : Prop :=
  trs.Pairwise (fun a b => a.team_name ≠ b.team_name)

/-- Data of the most recent response of a team. -/
def lastTeamData (trs : List TeamResponse) (name : String) : Option RawData :=
  ((teamResponses trs name).map (fun r => r.data)).getLast?

/- ===================== cross-domain stage (backend/nodes/graph_generator_node.py) ===================== -/

/-- The three per-domain slots filled by the extraction loop of the graph
generator node and interpolated into the chart-configuration prompt. -/
structure Extracted where
  sleep : Option RawData
  kitchen : Option RawData
  mobility : Option RawData

/-- Inner loop of the extraction: every response of a team entry overwrites
the slot selected by the team name, so the last response of the entry wins;
no error check is made. -/
def extractStep (acc : Extracted) (tr : TeamResponse) : Extracted :=
  tr.structured_responses.foldl
    (fun a r =>
      if tr.team_name = "sleep_team" then { a with sleep := some r.data }
      else if tr.team_name = "kitchen_team" then { a with kitchen := some r.data }
      else if tr.team_name = "mobility_team" then { a with mobility := some r.data }
      else a)
    acc

/-- Outer extraction loop of the graph generator node over all team
entries. -/
def extractDomainData (trs : List TeamResponse) : Extracted :=
  trs.foldl extractStep { sleep := none, kitchen := none, mobility := none }

/-- The original_query text the node rebuilds from the plan tasks. -/
def mkCorrelationQuery (plan : ExecutionPlan) : String :=
  String.intercalate (" | ") (plan.tasks.map (fun t => t.team ++ (": ") ++ t.instruction))

/-- Command emitted by the graph generator node: route plus the optional
graphs and messages updates; promptData records the extracted per-domain
values supplied to the chart-configuration prompt when the stage runs. -/
structure GenCommand where
  goto : String
  graphs : Option (List GraphData)
  messages : Option (List Message)
  promptData : Option Extracted

/-- The node of create_graph_generator_node in
backend/nodes/graph_generator_node.py.  The internal chart agent run and the
figure recovered from the python REPL are modelled by the agentOutput and
figDict inputs.  When a plan exists and is flagged cross_domain the node
extracts the per-domain data, invokes the chart agent and always appends one
correlation_chart artifact built from the recovered figure; otherwise it
only routes onward.  Both branches route to correlation_analyzer. -/
def graph_generator_node (state : State) (agentOutput : List Message) (figDict : String) : GenCommand :=
  match state.execution_plan with
  | some plan =>
    if plan.cross_domain then
      let original_query := mkCorrelationQuery plan
      let extracted := extractDomainData state.structured_responses
      let graph_data : GraphData :=
        { id := "correlation_chart", title := ("Correlation Chart: ") ++ original_query,
          type := "plotly", plotly_json := figDict }
      { goto := "correlation_analyzer"
        graphs := some (state.graphs ++ [graph_data])
        messages := some agentOutput
        promptData := some extracted }
    else
      { goto := "correlation_analyzer", graphs := none, messages := none, promptData := none }
  | none => { goto := "correlation_analyzer", graphs := none, messages := none, promptData := none }

/-- Claim-side count of the domains holding at least one non-error payload
in the team results. -/
def teamsWithNonErrorData (trs : List TeamResponse) : Nat :=
  (trs.filter (fun tr => tr.structured_responses.any (fun r => !(r.data.isError)))).length

/-- Concrete team results holding a single non-error sleep response. -/
def sleepOnlyResponses : List TeamResponse :=
  [{ structured_responses :=
      [{ task := "analyze sleep"
         agent_name := "sleep_agent"
         data := RawData.record ("sleep stats payload") }]
     team_name := "sleep_team" }]

/-- Concrete cross-domain state whose team results cover one domain only. -/
def stateOneDomainCross : State :=
  { messages := [], next := none, original_question := some ("correlate sleep and kitchen"),
    structured_responses := sleepOnlyResponses, execution_plan := some planTwoTeamsCross,
    completed_tasks := [], graphs := [] }

/-- Concrete cross-domain state with no visualization marker messages. -/
def stateCrossNoViz : State :=
  { messages := [], next := none, original_question := some ("q3"),
    structured_responses := [], execution_plan := some planTwoTeamsCross,
    completed_tasks := [], graphs := [] }

/-- Concrete kitchen-team entry holding two responses. -/
def twoKitchenResponses : List TeamResponse :=
  [{ structured_responses :=
      [{ task := "k1", agent_name := "kitchen_agent", data := RawData.record ("first kitchen payload") },
       { task := "k2", agent_name := "kitchen_agent", data := RawData.record ("second kitchen payload") }]
     team_name := "kitchen_team" }]

/-- Concrete sleep-team entry holding two responses. -/
def twoSleepResponses : List TeamResponse :=
  [{ structured_responses :=
      [{ task := "t1", agent_name := "sleep_agent", data := RawData.record ("first payload") },
       { task := "t2", agent_name := "sleep_agent", data := RawData.record ("second payload") }]
     team_name := "sleep_team" }]

/-- Concrete state whose message log records a completed sleep
visualization. -/
def stateVizDone : State :=
  { messages := [{ name := some ("sleep_visualization"), content := "done" }],
    next := none, original_question := some ("q6"), structured_responses := [],
    execution_plan := none, completed_tasks := [], graphs := [] }

/-- Concrete state carrying one supervisor instruction message. -/
def stateTasked : State :=
  { messages := [{ name := some ("supervisor_instruction"),
                   content := "[TASK]: analyze sleep of subject 2" }],
    next := none, original_question := some ("q8"), structured_responses := [],
    execution_plan := none, completed_tasks := [], graphs := [] }

/- ===================== theorems: retry governor ===================== -/

theorem invokeRetryLoop_success {α : Type} (calls : Nat → CallOutcome α) (i fuel : Nat)
    (v : α) (h : calls i = CallOutcome.success v) :
    invokeRetryLoop calls i (fuel + 1) = (RetryOutcome.ok v, []) := by
  unfold invokeRetryLoop
  rw [h]

theorem invokeRetryLoop_other {α : Type} (calls : Nat → CallOutcome α) (i fuel : Nat)
    (e : String) (h : calls i = CallOutcome.otherFailure e) :
    invokeRetryLoop calls i (fuel + 1) = (RetryOutcome.otherRaised e, []) := by
  unfold invokeRetryLoop
  rw [h]

theorem invokeRetryLoop_rateLimited_exhausted {α : Type} (calls : Nat → CallOutcome α) (i : Nat)
    (d : Option Nat) (h : calls i = CallOutcome.rateLimited d) :
    invokeRetryLoop calls i 1 = (RetryOutcome.rateLimitRaised, []) := by
  unfold invokeRetryLoop
  rw [h]

theorem invokeRetryLoop_rateLimited_step {α : Type} (calls : Nat → CallOutcome α) (i fuel : Nat)
    (d : Option Nat) (h : calls i = CallOutcome.rateLimited d) :
    invokeRetryLoop calls i (fuel + 2) =
      ((invokeRetryLoop calls (i + 1) (fuel + 1)).1,
        retryDelaySeconds d :: (invokeRetryLoop calls (i + 1) (fuel + 1)).2) := by
  conv_lhs => unfold invokeRetryLoop
  rw [h]

theorem invokeRetryLoop_rateLimited_forever {α : Type} (d : Option Nat) :
    ∀ (fuel i : Nat),
      invokeRetryLoop (fun _ => (CallOutcome.rateLimited d : CallOutcome α)) i (fuel + 1) =
        (RetryOutcome.rateLimitRaised, List.replicate fuel (retryDelaySeconds d)) := by
  intro fuel
  induction fuel with
  | zero =>
    intro i
    exact invokeRetryLoop_rateLimited_exhausted _ i d rfl
  | succ f ih =>
    intro i
    rw [invokeRetryLoop_rateLimited_step _ i f d rfl, ih (i + 1)]
    rfl

theorem invokeRetryLoop_failsThenSucceeds {α : Type} (v : α) :
    ∀ (ds : List (Option Nat)) (i fuel : Nat)
      (calls : Nat → CallOutcome α),
      (∀ j (h : j < ds.length), calls (i + j) = CallOutcome.rateLimited (ds.get ⟨j, h⟩)) →
      calls (i + ds.length) = CallOutcome.success v →
      ds.length < fuel →
      invokeRetryLoop calls i fuel = (RetryOutcome.ok v, ds.map retryDelaySeconds) := by
  intro ds
  induction ds with
  | nil =>
    intro i fuel calls _ hsucc hlt
    obtain ⟨f, rfl⟩ := Nat.exists_eq_succ_of_ne_zero (Nat.pos_iff_ne_zero.mp hlt)
    have hsucc2 : calls i = CallOutcome.success v := by simpa using hsucc
    exact invokeRetryLoop_success calls i f v hsucc2
  | cons d ds ih =>
    intro i fuel calls hfail hsucc hlt
    obtain ⟨f, rfl⟩ := Nat.exists_eq_succ_of_ne_zero (Nat.pos_iff_ne_zero.mp (Nat.lt_of_le_of_lt (Nat.zero_le _) hlt))
    have hfuel : ds.length + 1 < f + 1 := by simpa using hlt
    have hf : ds.length < f := Nat.lt_of_succ_lt_succ hfuel
    obtain ⟨f2, rfl⟩ := Nat.exists_eq_succ_of_ne_zero (Nat.pos_iff_ne_zero.mp (Nat.lt_of_le_of_lt (Nat.zero_le _) hf))
    have h0 : calls i = CallOutcome.rateLimited d := by
      have := hfail 0 (by simp)
      simpa using this
    have hrec :
        invokeRetryLoop calls (i + 1) (f2 + 1) = (RetryOutcome.ok v, ds.map retryDelaySeconds) := by
      apply ih (i + 1) (f2 + 1) calls
      · intro j hj
        have := hfail (j + 1) (by simpa using Nat.succ_lt_succ hj)
        simpa [Nat.add_assoc, Nat.add_comm 1 j] using this
      · have := hsucc
        simpa [Nat.add_assoc, Nat.add_comm 1 ds.length] using this
      · exact hf
    rw [invokeRetryLoop_rateLimited_step calls i f2 d h0, hrec]
    rfl

/-- C4.  The retry wrapper invoke_with_retry: a callable that fails with a
rate-limit error exactly k ≤ max_retries times and then succeeds makes the
wrapper sleep exactly k times, each time for the delay extracted from the
corresponding failure (default 60 when absent), and return the success
value; a callable that always fails with a rate-limit error makes the
wrapper re-raise after exactly max_retries retries (sleeping max_retries
times, one initial call plus max_retries retried calls); a callable whose
failure is not a rate-limit error propagates immediately with no sleep. -/
theorem retry_governor_behavior {α : Type} (m : Nat) (ds : List (Option Nat)) (v : α)
    (d : Option Nat) (e : String) (calls : Nat → CallOutcome α)
    (hk : ds.length ≤ m) (h0 : calls 0 = CallOutcome.otherFailure e) :
    invoke_with_retry (failsThenSucceeds ds v) m = (RetryOutcome.ok v, ds.map retryDelaySeconds)
    ∧ invoke_with_retry (fun _ => (CallOutcome.rateLimited d : CallOutcome α)) m =
        (RetryOutcome.rateLimitRaised, List.replicate m (retryDelaySeconds d))
    ∧ invoke_with_retry calls m = (RetryOutcome.otherRaised e, []) := by
  refine ⟨?_, ?_, ?_⟩
  · apply invokeRetryLoop_failsThenSucceeds v ds 0 (m + 1) (failsThenSucceeds ds v)
    · intro j hj
      simp [failsThenSucceeds, List.getElem?_eq_getElem hj]
    · simp [failsThenSucceeds, List.getElem?_eq_none (Nat.le_refl ds.length)]
    · exact Nat.lt_succ_of_le hk
  · exact invokeRetryLoop_rateLimited_forever d m 0
  · simp only [invoke_with_retry, invokeRetryLoop, h0]

/-- Witness for C4 at concrete inputs: two rate-limit failures with delays 5
and default 60 then success with 7, under max_retries = 3; a permanent
rate-limit failure with delay 2 sleeping three times then re-raising; and an
immediately propagated non-rate-limit failure. -/
theorem retry_governor_behavior_witness :
    invoke_with_retry (failsThenSucceeds [some 5, none] (7 : Nat)) 3 = (RetryOutcome.ok 7, [5, 60])
    ∧ invoke_with_retry (fun _ => (CallOutcome.rateLimited (some 2) : CallOutcome Nat)) 3 =
        (RetryOutcome.rateLimitRaised, [2, 2, 2])
    ∧ invoke_with_retry (fun _ => CallOutcome.otherFailure (α := Nat) ("boom")) 3 =
        (RetryOutcome.otherRaised ("boom"), []) := by
  have h := retry_governor_behavior 3 [some 5, none] (7 : Nat) (some 2) ("boom")
    (fun _ => CallOutcome.otherFailure ("boom")) (by decide) rfl
  refine ⟨?_, ?_, h.2.2⟩
  · simpa using h.1
  · simpa using h.2.1


/- ===================== theorems: planner and top-level supervisor ===================== -/

theorem supervisorCompletedTasksAux (l : List TeamResponse) :
    ∀ acc : List String,
      List.foldl
        (fun acc tr =>
          let t := pyStrip (tr.getStr ("task") (""))
          if t = "" then acc else acc.insert t)
        acc l = acc := by
  induction l with
  | nil => intro acc; rfl
  | cons tr rest ih => intro acc; exact ih acc

theorem supervisorCompletedTasks_eq_nil (responses : List TeamResponse) :
    supervisorCompletedTasks responses = [] :=
  supervisorCompletedTasksAux responses []

/-- C1 counterexample.  A compiled plan whose tasks reference two distinct
teams and whose cross_domain flag came back false is stored by the plan
compiler with cross_domain still false: no post-processing forces it to
true. -/
theorem planner_no_cross_domain_forcing :
    1 < distinctTeamsCount planTwoTeamsNoCross.tasks
    ∧ ((planner_node planTwoTeamsNoCross ("how did subject 1 sleep and cook")).execution_plan).cross_domain = false := by
  exact ⟨by decide, rfl⟩

/-- C1 amended.  planner_node stores the plan returned by the inference
service in the context unchanged: the execution_plan of its command is the
parsed plan itself, cross_domain keeps the value the service returned, the
completed-task set starts empty and control moves to the supervisor. -/
theorem planner_stores_plan_unchanged (plan : ExecutionPlan) (question : String) :
    (planner_node plan question).execution_plan = plan
    ∧ ((planner_node plan question).execution_plan).cross_domain = plan.cross_domain
    ∧ (planner_node plan question).completed_tasks = []
    ∧ (planner_node plan question).goto = "supervisor"
    ∧ (planner_node plan question).original_question = question :=
  ⟨rfl, rfl, rfl, rfl, rfl⟩

/-- C2 counterexample.  In a context whose two-team plan has cross_domain
true and whose completed-task set covers every instruction, the top-level
supervisor routes to END when the router answers FINISH, and to the proposed
member otherwise: the cross-domain stage is not a routing target, so the
terminal branch never inspects plan.cross_domain. -/
theorem top_supervisor_terminal_ignores_cross_domain :
    planInstructionsCompleted planTwoTeamsCross stateAllDone.completed_tasks = true
    ∧ planTwoTeamsCross.cross_domain = true
    ∧ (top_supervisor_node ["sleep_team", "kitchen_team", "mobility_team"] stateAllDone
        { next := "FINISH", task := "" } ("ans")).goto = TopGoto.endRoute
    ∧ (top_supervisor_node ["sleep_team", "kitchen_team", "mobility_team"] stateAllDone
        { next := "sleep_team", task := "x" } ("ans")).goto = TopGoto.member ("sleep_team") := by
  exact ⟨rfl, rfl, rfl, rfl⟩

/-- C2 amended.  Whenever the router output proposes FINISH the top-level
supervisor synthesizes inline and routes to END, regardless of the plan and
its cross_domain flag; otherwise it routes to the proposed member; and under
the router contract, whose options are FINISH plus the team members, the
cross-domain stage generator_node is never the target. -/
theorem top_supervisor_finish_routes_end (members : List String) (state : State)
    (resp : SupervisorRouter) (synthesisAnswer : String)
    (hgen : ("generator_node" : String) ∉ members)
    (hopt : resp.next = "FINISH" ∨ resp.next ∈ members) :
    (resp.next = "FINISH" →
      (top_supervisor_node members state resp synthesisAnswer).goto = TopGoto.endRoute)
    ∧ (resp.next ≠ "FINISH" →
      (top_supervisor_node members state resp synthesisAnswer).goto = TopGoto.member resp.next)
    ∧ (top_supervisor_node members state resp synthesisAnswer).goto ≠ TopGoto.member ("generator_node") := by
  have hc := supervisorCompletedTasks_eq_nil state.structured_responses
  unfold top_supervisor_node
  rw [hc]
  have hmem : ¬ (pyStrip resp.task ∈ ([] : List String)) := List.not_mem_nil _
  dsimp only
  rw [if_neg hmem]
  refine ⟨?_, ?_, ?_⟩
  · intro h
    rw [if_pos h]
  · intro h
    rw [if_neg h]
  · by_cases h : resp.next = "FINISH"
    · rw [if_pos h]
      intro hcontra
      exact TopGoto.noConfusion hcontra
    · rw [if_neg h]
      intro hcontra
      have hname : resp.next = "generator_node" := TopGoto.member.inj hcontra
      rcases hopt with hfin | hmemb
      · exact h hfin
      · exact hgen (hname ▸ hmemb)

/-- C3 counterexample.  One supervisor step on a fixed context makes one
inference-service call on a member route and two on the FINISH route, and
two runs on the same context with different router responses emit different
commands: the step is not a function of the context alone. -/
theorem top_supervisor_not_context_pure :
    topSupervisorServiceCalls stateVoid { next := "sleep_team", task := "t" } = 1
    ∧ topSupervisorServiceCalls stateVoid { next := "FINISH", task := "" } = 2
    ∧ top_supervisor_node ["sleep_team", "kitchen_team", "mobility_team"] stateVoid
        { next := "sleep_team", task := "t" } ("ans")
      ≠ top_supervisor_node ["sleep_team", "kitchen_team", "mobility_team"] stateVoid
        { next := "kitchen_team", task := "t" } ("ans") := by
  refine ⟨rfl, rfl, ?_⟩
  decide

/-- C3 amended.  The command emitted by the top-level supervisor is a
deterministic function of the router response and the synthesis text alone:
any two contexts produce the same command under equal service responses,
because the completed set the node rebuilds from structured_responses is
always empty; and every step performs at least one inference-service
call. -/
theorem top_supervisor_step_determinism (members : List String) (s1 s2 : State)
    (resp : SupervisorRouter) (synthesisAnswer : String) :
    top_supervisor_node members s1 resp synthesisAnswer
      = top_supervisor_node members s2 resp synthesisAnswer
    ∧ 1 ≤ topSupervisorServiceCalls s1 resp := by
  constructor
  · unfold top_supervisor_node
    rw [supervisorCompletedTasks_eq_nil s1.structured_responses,
      supervisorCompletedTasks_eq_nil s2.structured_responses]
  · unfold topSupervisorServiceCalls
    dsimp only
    split
    · decide
    · split <;> decide

/-- C7 counterexample.  The top-level supervisor does not invoke the task
scan: in a context whose completed-task set covers every instruction of the
plan, a router response proposing a member with a fresh task string is
followed, so the terminal branch is not reached even though completedTasks
covers all task instructions. -/
theorem supervisor_ignores_task_scan :
    planInstructionsCompleted planPair stateDonePair.completed_tasks = true
    ∧ (top_supervisor_node ["sleep_team", "kitchen_team", "mobility_team"] stateDonePair
        { next := "sleep_team", task := "fresh task" } ("a")).goto = TopGoto.member ("sleep_team")
    ∧ (top_supervisor_node ["sleep_team", "kitchen_team", "mobility_team"] stateDonePair
        { next := "sleep_team", task := "fresh task" } ("a")).goto ≠ TopGoto.endRoute := by
  refine ⟨rfl, rfl, ?_⟩
  decide

/-- C7 amended.  get_next_task scans plan.tasks in order and returns the
first task whose instruction is not in the completed set, returning none
exactly when every instruction is completed; the top-level supervisor,
however, never calls it, and its terminal branch is driven by the router
response rather than by completedTasks covering the plan. -/
theorem get_next_task_first_uncompleted (plan : ExecutionPlan) (completed : List String) :
    (plan.get_next_task completed = none ↔ ∀ t ∈ plan.tasks, t.instruction ∈ completed)
    ∧ (∀ t, plan.get_next_task completed = some t →
        ∃ pre post, plan.tasks = pre ++ t :: post ∧ t.instruction ∉ completed ∧
          ∀ u ∈ pre, u.instruction ∈ completed) := by
  constructor
  · show getNextTaskScan plan.tasks completed = none ↔ _
    induction plan.tasks with
    | nil => simp [getNextTaskScan]
    | cons hd tl ih =>
      by_cases h : hd.instruction ∈ completed
      · simpa [getNextTaskScan, h] using ih
      · simp [getNextTaskScan, h]
  · intro t
    show getNextTaskScan plan.tasks completed = some t → _
    induction plan.tasks with
    | nil => intro h; cases h
    | cons hd tl ih =>
      by_cases h : hd.instruction ∈ completed
      · intro hscan
        rw [show getNextTaskScan (hd :: tl) completed = getNextTaskScan tl completed by
          simp [getNextTaskScan, h]] at hscan
        obtain ⟨pre, post, heq, hnot, hpre⟩ := ih hscan
        refine ⟨hd :: pre, post, ?_, hnot, ?_⟩
        · rw [heq]; rfl
        · intro u hu
          rcases List.mem_cons.mp hu with hu1 | hu2
          · rw [hu1]; exact h
          · exact hpre u hu2
      · intro hscan
        have ht : t = hd := by
          rw [show getNextTaskScan (hd :: tl) completed = some hd by
            simp [getNextTaskScan, h]] at hscan
          exact (Option.some.injEq _ _ ▸ hscan).symm
        subst ht
        exact ⟨[], tl, rfl, h, by intro u hu; cases hu⟩

/-- Witness for C7 at a concrete two-task plan with the first instruction
completed: the scan returns the second task and the theorem yields that its
instruction is not completed. -/
theorem get_next_task_first_uncompleted_witness :
    planScanWitness.get_next_task ["a"] = some { team := "kitchen_team", instruction := "b" }
    ∧ ("b" : String) ∉ (["a"] : List String) := by
  constructor
  · rfl
  · obtain ⟨pre, post, heq, hnot, hpre⟩ :=
      (get_next_task_first_uncompleted planScanWitness ["a"]).2
        { team := "kitchen_team", instruction := "b" } rfl
    exact hnot

/-- Witness for C2 amended at a concrete context and a FINISH router
response. -/
theorem top_supervisor_finish_routes_end_witness :
    (top_supervisor_node ["sleep_team", "kitchen_team", "mobility_team"] stateVoid
      { next := "FINISH", task := "" } ("a")).goto = TopGoto.endRoute := by
  exact (top_supervisor_finish_routes_end ["sleep_team", "kitchen_team", "mobility_team"]
    stateVoid { next := "FINISH", task := "" } ("a") (by decide) (Or.inl rfl)).1 rfl


/- ===================== theorems: team supervisors and cross-domain stage ===================== -/

theorem sleepRouteGuard_completed (called : Bool) (goto : String) :
    sleepRouteGuard called true goto = "__end__" := by
  unfold sleepRouteGuard
  cases hg : (goto == "sleep_visualization") <;> cases hf : (goto == "FINISH") <;>
    simp [hg, hf]

theorem sleepRouteGuard_called (completed : Bool) :
    sleepRouteGuard true completed ("sleep_visualization") = "__end__" := by
  cases completed <;> rfl

theorem mobilityRouteGuard_completed (called : Bool) (goto : String) :
    mobilityRouteGuard called true goto = "__end__" := by
  unfold mobilityRouteGuard
  cases hg : (goto == "mobility_visualization_node") <;> cases hf : (goto == "FINISH") <;>
    simp [hg, hf]

theorem mobilityRouteGuard_called (completed : Bool) :
    mobilityRouteGuard true completed ("mobility_visualization_node") = "__end__" := by
  cases completed <;> rfl

/-- C6 counterexample.  In a context whose plan is flagged cross_domain and
whose message log carries no visualization marker, each team supervisor
emits the visualization route whenever the policy call returns it: no
deterministic guardrail consults plan.cross_domain. -/
theorem team_supervisors_no_cross_domain_guardrail :
    stateCrossNoViz.execution_plan = some planTwoTeamsCross
    ∧ planTwoTeamsCross.cross_domain = true
    ∧ (sleep_supervisor_node stateCrossNoViz ("sleep_visualization")).goto = "sleep_visualization"
    ∧ (kitchen_supervisor_node stateCrossNoViz ("kitchen_visualization_node")).goto = "kitchen_visualization_node"
    ∧ (mobility_supervisor_node stateCrossNoViz ("mobility_visualization_node")).goto = "mobility_visualization_node" :=
  ⟨rfl, rfl, rfl, rfl, rfl⟩

/-- C6 amended.  The deterministic guardrails of the team supervisors
concern only visualization repetition, not cross_domain: in the sleep and
mobility supervisors a completed visualization forces the emitted route to
END whatever the policy returned, and an already called or completed
visualization downgrades a repeated visualization choice to END; the
cross_domain flag influences only the prompt of the policy call, so a
visualization choice returned under cross_domain true is emitted
unchanged. -/
theorem team_supervisor_guardrails (state : State) (respNext : String) :
    ((vizFlagsScan ("sleep_supervisor") ("sleep_visualization") state.messages false).2 = true →
      (sleep_supervisor_node state respNext).goto = "__end__")
    ∧ ((vizFlagsScan ("sleep_supervisor") ("sleep_visualization") state.messages false).1 = true →
      (sleep_supervisor_node state ("sleep_visualization")).goto = "__end__")
    ∧ ((vizFlagsScan ("mobility_supervisor") ("mobility_visualization") state.messages false).2 = true →
      (mobility_supervisor_node state respNext).goto = "__end__")
    ∧ ((vizFlagsScan ("mobility_supervisor") ("mobility_visualization") state.messages false).1 = true →
      (mobility_supervisor_node state ("mobility_visualization_node")).goto = "__end__") := by
  refine ⟨?_, ?_, ?_, ?_⟩
  · intro h
    show sleepRouteGuard
      (vizFlagsScan ("sleep_supervisor") ("sleep_visualization") state.messages false).1
      (vizFlagsScan ("sleep_supervisor") ("sleep_visualization") state.messages false).2
      respNext = "__end__"
    rw [h]
    exact sleepRouteGuard_completed _ _
  · intro h
    show sleepRouteGuard
      (vizFlagsScan ("sleep_supervisor") ("sleep_visualization") state.messages false).1
      (vizFlagsScan ("sleep_supervisor") ("sleep_visualization") state.messages false).2
      ("sleep_visualization") = "__end__"
    rw [h]
    exact sleepRouteGuard_called _
  · intro h
    show mobilityRouteGuard
      (vizFlagsScan ("mobility_supervisor") ("mobility_visualization") state.messages false).1
      (vizFlagsScan ("mobility_supervisor") ("mobility_visualization") state.messages false).2
      respNext = "__end__"
    rw [h]
    exact mobilityRouteGuard_completed _ _
  · intro h
    show mobilityRouteGuard
      (vizFlagsScan ("mobility_supervisor") ("mobility_visualization") state.messages false).1
      (vizFlagsScan ("mobility_supervisor") ("mobility_visualization") state.messages false).2
      ("mobility_visualization_node") = "__end__"
    rw [h]
    exact mobilityRouteGuard_called _

/-- Witness for C6 amended at a concrete context with a completed sleep
visualization: the sleep supervisor routes to END whatever the policy
proposed. -/
theorem team_supervisor_guardrails_witness :
    (sleep_supervisor_node stateVizDone ("analyze_sleep_node")).goto = "__end__" := by
  exact (team_supervisor_guardrails stateVizDone ("analyze_sleep_node")).1 rfl

/-- C5 counterexample.  A cross-domain state whose team results hold
non-error data for a single domain still makes the stage generate and
append the correlation artifact: no minimum of two domains is checked. -/
theorem cross_domain_stage_no_minimum_check :
    teamsWithNonErrorData stateOneDomainCross.structured_responses = 1
    ∧ (graph_generator_node stateOneDomainCross [] ("fig")).graphs
        = some [{ id := "correlation_chart",
                  title := ("Correlation Chart: ") ++ mkCorrelationQuery planTwoTeamsCross,
                  type := "plotly", plotly_json := "fig" }]
    ∧ (graph_generator_node stateOneDomainCross [] ("fig")).goto = "correlation_analyzer" :=
  ⟨rfl, rfl, rfl⟩

/-- C5 amended.  The cross-domain stage always routes onward to the
synthesis node correlation_analyzer; when a plan exists and is flagged
cross_domain it generates and appends exactly one correlation artifact,
regardless of how many domains hold non-error data, and otherwise it skips
artifact generation. -/
theorem cross_domain_stage_behavior (state : State) (agentOutput : List Message) (fig : String) :
    (graph_generator_node state agentOutput fig).goto = "correlation_analyzer"
    ∧ (∀ plan, state.execution_plan = some plan → plan.cross_domain = true →
        (graph_generator_node state agentOutput fig).graphs = some (state.graphs ++
          [{ id := "correlation_chart",
             title := ("Correlation Chart: ") ++ mkCorrelationQuery plan,
             type := "plotly", plotly_json := fig }]))
    ∧ (∀ plan, state.execution_plan = some plan → plan.cross_domain = false →
        (graph_generator_node state agentOutput fig).graphs = none)
    ∧ (state.execution_plan = none → (graph_generator_node state agentOutput fig).graphs = none) := by
  refine ⟨?_, ?_, ?_, ?_⟩
  · cases hp : state.execution_plan with
    | none => simp [graph_generator_node, hp]
    | some plan =>
      by_cases hc : plan.cross_domain
      · simp [graph_generator_node, hp, hc]
      · simp [graph_generator_node, hp, hc]
  · intro plan hp hc
    simp [graph_generator_node, hp, hc]
  · intro plan hp hc
    simp [graph_generator_node, hp, hc]
  · intro hp
    simp [graph_generator_node, hp]

/-- Witness for C5 amended: the one-domain cross-domain state receives the
appended artifact. -/
theorem cross_domain_stage_behavior_witness :
    (graph_generator_node stateOneDomainCross [] ("figw")).graphs
      = some (stateOneDomainCross.graphs ++
        [{ id := "correlation_chart",
           title := ("Correlation Chart: ") ++ mkCorrelationQuery planTwoTeamsCross,
           type := "plotly", plotly_json := "figw" }]) := by
  exact (cross_domain_stage_behavior stateOneDomainCross [] ("figw")).2.1 planTwoTeamsCross rfl rfl


/- ===================== theorems: collector node and team results ===================== -/

theorem extractAssign_sleep_last (tr : TeamResponse) (h : tr.team_name = "sleep_team") :
    ∀ (rs : List AgentResponse) (hne : rs ≠ []) (acc : Extracted),
      (rs.foldl (fun a r =>
        if tr.team_name = "sleep_team" then { a with sleep := some r.data }
        else if tr.team_name = "kitchen_team" then { a with kitchen := some r.data }
        else if tr.team_name = "mobility_team" then { a with mobility := some r.data }
        else a) acc).sleep = some ((rs.getLast hne).data) := by
  intro rs
  induction rs with
  | nil => intro hne; exact absurd rfl hne
  | cons r rest ih =>
    intro hne acc
    cases rest with
    | nil => simp [h]
    | cons r2 rest2 =>
      rw [List.foldl_cons]
      have hne2 : r2 :: rest2 ≠ [] := List.cons_ne_nil _ _
      rw [show (r :: r2 :: rest2).getLast hne = (r2 :: rest2).getLast hne2 from
        List.getLast_cons hne2]
      exact ih hne2 _

theorem extractAssign_kitchen_last (tr : TeamResponse) (h : tr.team_name = "kitchen_team") :
    ∀ (rs : List AgentResponse) (hne : rs ≠ []) (acc : Extracted),
      (rs.foldl (fun a r =>
        if tr.team_name = "sleep_team" then { a with sleep := some r.data }
        else if tr.team_name = "kitchen_team" then { a with kitchen := some r.data }
        else if tr.team_name = "mobility_team" then { a with mobility := some r.data }
        else a) acc).kitchen = some ((rs.getLast hne).data) := by
  have hsn : tr.team_name ≠ "sleep_team" := by rw [h]; decide
  intro rs
  induction rs with
  | nil => intro hne; exact absurd rfl hne
  | cons r rest ih =>
    intro hne acc
    cases rest with
    | nil => simp [h, hsn]
    | cons r2 rest2 =>
      rw [List.foldl_cons]
      have hne2 : r2 :: rest2 ≠ [] := List.cons_ne_nil _ _
      rw [show (r :: r2 :: rest2).getLast hne = (r2 :: rest2).getLast hne2 from
        List.getLast_cons hne2]
      exact ih hne2 _

theorem extractAssign_mobility_last (tr : TeamResponse) (h : tr.team_name = "mobility_team") :
    ∀ (rs : List AgentResponse) (hne : rs ≠ []) (acc : Extracted),
      (rs.foldl (fun a r =>
        if tr.team_name = "sleep_team" then { a with sleep := some r.data }
        else if tr.team_name = "kitchen_team" then { a with kitchen := some r.data }
        else if tr.team_name = "mobility_team" then { a with mobility := some r.data }
        else a) acc).mobility = some ((rs.getLast hne).data) := by
  have hsn : tr.team_name ≠ "sleep_team" := by rw [h]; decide
  have hkn : tr.team_name ≠ "kitchen_team" := by rw [h]; decide
  intro rs
  induction rs with
  | nil => intro hne; exact absurd rfl hne
  | cons r rest ih =>
    intro hne acc
    cases rest with
    | nil => simp [h, hsn, hkn]
    | cons r2 rest2 =>
      rw [List.foldl_cons]
      have hne2 : r2 :: rest2 ≠ [] := List.cons_ne_nil _ _
      rw [show (r :: r2 :: rest2).getLast hne = (r2 :: rest2).getLast hne2 from
        List.getLast_cons hne2]
      exact ih hne2 _

theorem extractAssign_sleep_unchanged (tr : TeamResponse) (h : tr.team_name ≠ "sleep_team") :
    ∀ (rs : List AgentResponse) (acc : Extracted),
      (rs.foldl (fun a r =>
        if tr.team_name = "sleep_team" then { a with sleep := some r.data }
        else if tr.team_name = "kitchen_team" then { a with kitchen := some r.data }
        else if tr.team_name = "mobility_team" then { a with mobility := some r.data }
        else a) acc).sleep = acc.sleep := by
  intro rs
  induction rs with
  | nil => intro acc; rfl
  | cons r rest ih =>
    intro acc
    rw [List.foldl_cons, ih]
    by_cases h2 : tr.team_name = "kitchen_team" <;> by_cases h3 : tr.team_name = "mobility_team" <;>
      simp [h, h2, h3]

theorem extractAssign_kitchen_unchanged (tr : TeamResponse) (h : tr.team_name ≠ "kitchen_team") :
    ∀ (rs : List AgentResponse) (acc : Extracted),
      (rs.foldl (fun a r =>
        if tr.team_name = "sleep_team" then { a with sleep := some r.data }
        else if tr.team_name = "kitchen_team" then { a with kitchen := some r.data }
        else if tr.team_name = "mobility_team" then { a with mobility := some r.data }
        else a) acc).kitchen = acc.kitchen := by
  intro rs
  induction rs with
  | nil => intro acc; rfl
  | cons r rest ih =>
    intro acc
    rw [List.foldl_cons, ih]
    by_cases h1 : tr.team_name = "sleep_team" <;> by_cases h3 : tr.team_name = "mobility_team" <;>
      simp [h, h1, h3]

theorem extractAssign_mobility_unchanged (tr : TeamResponse) (h : tr.team_name ≠ "mobility_team") :
    ∀ (rs : List AgentResponse) (acc : Extracted),
      (rs.foldl (fun a r =>
        if tr.team_name = "sleep_team" then { a with sleep := some r.data }
        else if tr.team_name = "kitchen_team" then { a with kitchen := some r.data }
        else if tr.team_name = "mobility_team" then { a with mobility := some r.data }
        else a) acc).mobility = acc.mobility := by
  intro rs
  induction rs with
  | nil => intro acc; rfl
  | cons r rest ih =>
    intro acc
    rw [List.foldl_cons, ih]
    by_cases h1 : tr.team_name = "sleep_team" <;> by_cases h2 : tr.team_name = "kitchen_team" <;>
      simp [h, h1, h2]

theorem extractSteps_sleep_unchanged :
    ∀ (post : List TeamResponse),
      (∀ tr2 ∈ post, tr2.team_name ≠ "sleep_team") →
      ∀ acc : Extracted, ((post.foldl extractStep acc)).sleep = acc.sleep := by
  intro post
  induction post with
  | nil => intro _ acc; rfl
  | cons tr rest ih =>
    intro hall acc
    rw [List.foldl_cons, ih (fun tr2 h2 => hall tr2 (List.mem_cons_of_mem _ h2))]
    exact extractAssign_sleep_unchanged tr (hall tr (List.mem_cons_self _ _)) _ _

theorem extractSteps_kitchen_unchanged :
    ∀ (post : List TeamResponse),
      (∀ tr2 ∈ post, tr2.team_name ≠ "kitchen_team") →
      ∀ acc : Extracted, ((post.foldl extractStep acc)).kitchen = acc.kitchen := by
  intro post
  induction post with
  | nil => intro _ acc; rfl
  | cons tr rest ih =>
    intro hall acc
    rw [List.foldl_cons, ih (fun tr2 h2 => hall tr2 (List.mem_cons_of_mem _ h2))]
    exact extractAssign_kitchen_unchanged tr (hall tr (List.mem_cons_self _ _)) _ _

theorem extractSteps_mobility_unchanged :
    ∀ (post : List TeamResponse),
      (∀ tr2 ∈ post, tr2.team_name ≠ "mobility_team") →
      ∀ acc : Extracted, ((post.foldl extractStep acc)).mobility = acc.mobility := by
  intro post
  induction post with
  | nil => intro _ acc; rfl
  | cons tr rest ih =>
    intro hall acc
    rw [List.foldl_cons, ih (fun tr2 h2 => hall tr2 (List.mem_cons_of_mem _ h2))]
    exact extractAssign_mobility_unchanged tr (hall tr (List.mem_cons_self _ _)) _ _

/-- C10.  In the extraction loop of the cross-domain stage, a team entry
with several agent responses contributes only the data of the last response
of its list, whichever of the three domains the entry belongs to: every
earlier response of the same team is overwritten by the sleep, kitchen and
mobility branches alike; and the values supplied to the
chart-configuration prompt when the stage runs are exactly the extracted
per-domain slots. -/
theorem cross_domain_prompt_last_response (pre post : List TeamResponse) (tr : TeamResponse)
    (hne : tr.structured_responses ≠ [])
    (h3 : ∀ tr2 ∈ post, tr2.team_name ≠ tr.team_name) :
    (tr.team_name = "sleep_team" →
      (extractDomainData (pre ++ tr :: post)).sleep
        = some ((tr.structured_responses.getLast hne).data))
    ∧ (tr.team_name = "kitchen_team" →
      (extractDomainData (pre ++ tr :: post)).kitchen
        = some ((tr.structured_responses.getLast hne).data))
    ∧ (tr.team_name = "mobility_team" →
      (extractDomainData (pre ++ tr :: post)).mobility
        = some ((tr.structured_responses.getLast hne).data))
    ∧ ∀ (state : State) (agentOutput : List Message) (fig : String) (plan : ExecutionPlan),
        state.execution_plan = some plan → plan.cross_domain = true →
        (graph_generator_node state agentOutput fig).promptData
          = some (extractDomainData state.structured_responses) := by
  refine ⟨?_, ?_, ?_, ?_⟩
  · intro h1
    unfold extractDomainData
    rw [List.foldl_append, List.foldl_cons]
    rw [extractSteps_sleep_unchanged post (fun tr2 h2 => by rw [← h1]; exact h3 tr2 h2)]
    exact extractAssign_sleep_last tr h1 tr.structured_responses hne _
  · intro h1
    unfold extractDomainData
    rw [List.foldl_append, List.foldl_cons]
    rw [extractSteps_kitchen_unchanged post (fun tr2 h2 => by rw [← h1]; exact h3 tr2 h2)]
    exact extractAssign_kitchen_last tr h1 tr.structured_responses hne _
  · intro h1
    unfold extractDomainData
    rw [List.foldl_append, List.foldl_cons]
    rw [extractSteps_mobility_unchanged post (fun tr2 h2 => by rw [← h1]; exact h3 tr2 h2)]
    exact extractAssign_mobility_last tr h1 tr.structured_responses hne _
  · intro state agentOutput fig plan hp hc
    simp [graph_generator_node, hp, hc]

/-- Witness for C10 at a sleep-team entry and a kitchen-team entry each
holding two responses: only the second payload reaches the prompt slot of
the respective domain. -/
theorem cross_domain_prompt_last_response_witness :
    (extractDomainData twoSleepResponses).sleep = some (RawData.record ("second payload"))
    ∧ (extractDomainData twoKitchenResponses).kitchen
      = some (RawData.record ("second kitchen payload")) := by
  constructor
  · exact (cross_domain_prompt_last_response [] []
      { structured_responses :=
          [{ task := "t1", agent_name := "sleep_agent", data := RawData.record ("first payload") },
           { task := "t2", agent_name := "sleep_agent", data := RawData.record ("second payload") }]
        team_name := "sleep_team" } (List.cons_ne_nil _ _)
      (fun tr2 h2 => absurd h2 (List.not_mem_nil tr2))).1 rfl
  · exact (cross_domain_prompt_last_response [] []
      { structured_responses :=
          [{ task := "k1", agent_name := "kitchen_agent",
             data := RawData.record ("first kitchen payload") },
           { task := "k2", agent_name := "kitchen_agent",
             data := RawData.record ("second kitchen payload") }]
        team_name := "kitchen_team" } (List.cons_ne_nil _ _)
      (fun tr2 h2 => absurd h2 (List.not_mem_nil tr2))).2.1 rfl

theorem teamResponses_append_same (trs : List TeamResponse) (name : String) (r : AgentResponse) :
    teamResponses (appendTeamResponse trs name r) name = teamResponses trs name ++ [r] := by
  induction trs with
  | nil => simp [appendTeamResponse, teamResponses, List.find?]
  | cons tr rest ih =>
    by_cases h : tr.team_name = name
    · simp [appendTeamResponse, teamResponses, List.find?, h]
    · have hb : (tr.team_name == name) = false := by simp [h]
      simp only [appendTeamResponse, if_neg h, teamResponses, List.find?, hb] at ih ⊢
      exact ih

theorem teamResponses_append_other (trs : List TeamResponse) (name : String) (r : AgentResponse)
    (t : String) (ht : t ≠ name) :
    teamResponses (appendTeamResponse trs name r) t = teamResponses trs t := by
  have hnt : (name == t) = false := by simp [Ne.symm ht]
  induction trs with
  | nil =>
    simp [appendTeamResponse, teamResponses, List.find?, hnt]
  | cons tr rest ih =>
    by_cases hn : tr.team_name = name
    · have hbt : (tr.team_name == t) = false := by rw [hn]; exact hnt
      simp [appendTeamResponse, teamResponses, List.find?, hn, hbt, hnt]
    · by_cases h2 : tr.team_name = t
      · simp [appendTeamResponse, teamResponses, List.find?, hn, h2, ht]
      · have hbt : (tr.team_name == t) = false := by simp [h2]
        simp only [appendTeamResponse, if_neg hn, teamResponses, List.find?, hbt] at ih ⊢
        exact ih

theorem appendTeamResponse_name_mem (name : String) (r : AgentResponse) :
    ∀ (trs : List TeamResponse) (x : TeamResponse), x ∈ appendTeamResponse trs name r →
      x.team_name = name ∨ x.team_name ∈ trs.map (fun tr => tr.team_name) := by
  intro trs
  induction trs with
  | nil =>
    intro x hx
    rw [List.mem_singleton.mp hx]
    exact Or.inl rfl
  | cons tr rest ih =>
    intro x hx
    by_cases h : tr.team_name = name
    · rw [show appendTeamResponse (tr :: rest) name r =
          { tr with structured_responses := tr.structured_responses ++ [r] } :: rest from
        by simp [appendTeamResponse, h]] at hx
      rcases List.mem_cons.mp hx with hx1 | hx2
      · rw [hx1]
        exact Or.inl h
      · exact Or.inr (List.mem_map_of_mem _ (List.mem_cons_of_mem _ hx2))
    · rw [show appendTeamResponse (tr :: rest) name r = tr :: appendTeamResponse rest name r from
        by simp [appendTeamResponse, h]] at hx
      rcases List.mem_cons.mp hx with hx1 | hx2
      · rw [hx1]
        exact Or.inr (List.mem_map_of_mem _ (List.mem_cons_self _ _))
      · rcases ih x hx2 with h1 | h2
        · exact Or.inl h1
        · refine Or.inr ?_
          rw [List.map_cons]
          exact List.mem_cons_of_mem _ h2

theorem appendTeamResponse_uniq (name : String) (r : AgentResponse) :
    ∀ (trs : List TeamResponse), uniquePerTeam trs → uniquePerTeam (appendTeamResponse trs name r) := by
  intro trs
  induction trs with
  | nil =>
    intro _
    exact List.pairwise_singleton _ _
  | cons tr rest ih =>
    intro h
    rcases List.pairwise_cons.mp h with ⟨hrel, hrest⟩
    by_cases hn : tr.team_name = name
    · rw [show appendTeamResponse (tr :: rest) name r =
          { tr with structured_responses := tr.structured_responses ++ [r] } :: rest from
        by simp [appendTeamResponse, hn]]
      exact List.pairwise_cons.mpr ⟨fun b hb => hrel b hb, hrest⟩
    · rw [show appendTeamResponse (tr :: rest) name r = tr :: appendTeamResponse rest name r from
        by simp [appendTeamResponse, hn]]
      refine List.pairwise_cons.mpr ⟨?_, ih hrest⟩
      intro b hb
      rcases appendTeamResponse_name_mem name r rest b hb with h1 | h2
      · rw [h1]
        exact hn
      · rcases List.mem_map.mp h2 with ⟨y, hy, hyname⟩
        rw [← hyname]
        exact hrel y hy

/-- C9.  The team-results merge of the collector nodes keeps exactly one
entry per team name and strictly appends: under the uniqueness invariant
the merged list is still unique per team, the response list of the merged
team equals the old list with the new response appended at the end, every
other team keeps its list unchanged, and no response-list length ever
decreases. -/
theorem team_results_append_invariant (trs : List TeamResponse) (name : String)
    (r : AgentResponse) (h : uniquePerTeam trs) :
    uniquePerTeam (appendTeamResponse trs name r)
    ∧ teamResponses (appendTeamResponse trs name r) name = teamResponses trs name ++ [r]
    ∧ (∀ t, t ≠ name → teamResponses (appendTeamResponse trs name r) t = teamResponses trs t)
    ∧ ∀ t, (teamResponses trs t).length ≤ (teamResponses (appendTeamResponse trs name r) t).length := by
  refine ⟨appendTeamResponse_uniq name r trs h, teamResponses_append_same trs name r,
    fun t ht => teamResponses_append_other trs name r t ht, ?_⟩
  intro t
  by_cases ht : t = name
  · rw [ht, teamResponses_append_same]
    simp
  · rw [teamResponses_append_other trs name r t ht]

/-- Witness for C9: appending a second sleep response to the one-entry team
results keeps uniqueness and appends to the existing list. -/
theorem team_results_append_invariant_witness :
    uniquePerTeam (appendTeamResponse sleepOnlyResponses ("sleep_team")
      { task := "t2", agent_name := "sleep_agent", data := RawData.record ("p2") })
    ∧ teamResponses (appendTeamResponse sleepOnlyResponses ("sleep_team")
        { task := "t2", agent_name := "sleep_agent", data := RawData.record ("p2") }) ("sleep_team")
      = teamResponses sleepOnlyResponses ("sleep_team")
        ++ [{ task := "t2", agent_name := "sleep_agent", data := RawData.record ("p2") }] := by
  have h := team_results_append_invariant sleepOnlyResponses ("sleep_team")
    { task := "t2", agent_name := "sleep_agent", data := RawData.record ("p2") }
    (List.pairwise_singleton _ _)
  exact ⟨h.1, h.2.1⟩

theorem lastTeamData_append (trs : List TeamResponse) (name : String) (r : AgentResponse) :
    lastTeamData (appendTeamResponse trs name r) name = some r.data := by
  unfold lastTeamData
  rw [teamResponses_append_same, List.map_append]
  simp

/-- C8.  The emitted data of the sleep collector node is the single tool
output when exactly one tool fired, the aggregate envelope carrying the
output list and its count when several fired, and the error sentinel when
none fired; a tool-level error output passes through unchanged as the data
of the newest sleep-team response, the extracted task is added to the
completed set in every case, and the node always returns a command routing
back to the team supervisor. -/
theorem collector_node_emission (state : State) (agentMessages : List AgentMessage) :
    (∀ r, harvestToolResults agentMessages = [r] →
      lastTeamData (analyze_sleep_node state agentMessages).structured_responses ("sleep_team")
        = some r)
    ∧ (∀ r1 r2 rest, harvestToolResults agentMessages = r1 :: r2 :: rest →
      lastTeamData (analyze_sleep_node state agentMessages).structured_responses ("sleep_team")
        = some (RawData.aggregate (r1 :: r2 :: rest) (rest.length + 2)))
    ∧ (harvestToolResults agentMessages = [] →
      lastTeamData (analyze_sleep_node state agentMessages).structured_responses ("sleep_team")
        = some (RawData.error ("Nessuna risposta dall\x27agente sleep")))
    ∧ findTaskMsg state.messages ∈ (analyze_sleep_node state agentMessages).completed_tasks
    ∧ (analyze_sleep_node state agentMessages).goto = "sleep_team_supervisor" := by
  have hbase : (analyze_sleep_node state agentMessages).structured_responses
      = appendTeamResponse state.structured_responses ("sleep_team")
        { task := match findTaskMsg state.messages with
                  | some t => if t = "" then ("Analizza il sonno del soggetto richiesto.") else t
                  | none => "Analizza il sonno del soggetto richiesto."
          agent_name := "sleep_agent"
          data := collect_agent_data (harvestToolResults agentMessages) } := rfl
  refine ⟨?_, ?_, ?_, ?_, rfl⟩
  · intro r hr
    rw [hbase, lastTeamData_append, hr]
    rfl
  · intro r1 r2 rest hr
    rw [hbase, lastTeamData_append, hr]
    rfl
  · intro hr
    rw [hbase, lastTeamData_append, hr]
    rfl
  · show findTaskMsg state.messages ∈ addCompleted state.completed_tasks (findTaskMsg state.messages)
    unfold addCompleted
    by_cases h : findTaskMsg state.messages ∈ state.completed_tasks
    · rw [if_pos h]
      exact h
    · rw [if_neg h]
      exact List.mem_append_right _ (List.mem_singleton_self _)

/-- Witness for C8: the sleep node run over a single error tool output
stores that sentinel unchanged as the newest sleep-team data and marks the
extracted task completed. -/
theorem collector_node_emission_witness :
    lastTeamData (analyze_sleep_node stateTasked
        [AgentMessage.toolMsg (RawData.error ("no data for period"))]).structured_responses
        ("sleep_team")
      = some (RawData.error ("no data for period"))
    ∧ some ("analyze sleep of subject 2") ∈ (analyze_sleep_node stateTasked
        [AgentMessage.toolMsg (RawData.error ("no data for period"))]).completed_tasks := by
  have h := collector_node_emission stateTasked
    [AgentMessage.toolMsg (RawData.error ("no data for period"))]
  refine ⟨h.1 (RawData.error ("no data for period")) rfl, ?_⟩
  have h2 := h.2.2.2.1
  exact (show findTaskMsg stateTasked.messages = some ("analyze sleep of subject 2") from rfl) ▸ h2
